import Mathlib

/-!
Shallow embedding of the orchestration layers of the vector-embeddings-chromadb
repository (indexing_pipeline.py, retrieval_handler.py, app.py, run_indexing.py),
together with theorems settling the specification claims about them.

External collaborators (the document parser, the Gemini embedding and generation
clients, and the ChromaDB collection) are passed in as function parameters; a call
that can raise a Python exception is modelled as returning `Except String`.
Embedding vectors are abstract (a type parameter `E`), since the code never inspects
their contents.
-/

/-- A value in a ChromaDB metadata map: the dicts built by the pipeline hold
strings and integers. -/
inductive MetaVal where
  | str (s : String)
  | int (n : Int)
deriving DecidableEq

/-- A metadata map, modelling a Python dict with string keys (as an association
list; the dicts built by the code have pairwise distinct keys). -/
abbrev MetaMap := List (String × MetaVal)

/-- Python `d.get(k, v)` on a metadata map. -/
def dget (d : MetaMap) (k : String) (v : MetaVal) : MetaVal :=
  (d.lookup k).getD v

/-- Python `str(...)` of a metadata value, as interpolated by an f-string. -/
def MetaVal.pyStr : MetaVal → String
  | MetaVal.str s => s
  | MetaVal.int n => toString n

/-- A Section Chunk as produced by the external `parse_document_to_sections`
(a Python dict). The pipeline reads every field with `dict.get` and a default,
so each field may be absent. The `page_number` field, when present, is an
integer (the `int(...)` conversion in the code succeeds exactly on such values;
values on which `int()` raises are outside this model). -/
structure Chunk where
  document_name : Option String
  page_number : Option Int
  section_title : Option String
  full_path : Option (List String)
  content : Option String
deriving DecidableEq

/-- indexing_pipeline.py, `IndexingPipeline._prepare_chunk_for_embedding`. -/
def prepare_chunk_for_embedding (chunk : Chunk) : String :=
  let full_path_str := String.intercalate " > " (chunk.full_path.getD [])
  "Section Path: " ++ full_path_str ++ "\nContent: " ++ chunk.content.getD ""

/-- POSIX `os.path.basename`: the part of the path after the last slash. -/
def basename (p : String) : String :=
  (p.splitOn "/").getLastD ""

/-- The metadata dict built for one chunk in step 3 of
`process_and_index_pdf_async` (indexing_pipeline.py lines 79-87). -/
def chunk_metadata (chunk : Chunk) : MetaMap :=
  [("document_name", MetaVal.str (chunk.document_name.getD "")),
   ("page_number", MetaVal.int (chunk.page_number.getD 0)),
   ("section_title", MetaVal.str (chunk.section_title.getD "")),
   ("full_path", MetaVal.str (String.intercalate " > " (chunk.full_path.getD []))),
   ("original_content", MetaVal.str (chunk.content.getD ""))]

/-- One record of the ChromaDB collection: identifier, embedding vector,
document text and metadata map. -/
structure IndexedEntry (E : Type) where
  id : String
  embedding : E
  document : String
  metadata : MetaMap
deriving DecidableEq

/-- The batch of entries formed by zipping the four parallel lists passed to
`collection.add`. -/
def mk_entries {E : Type} (ids : List String) (embeddings : List E)
    (documents : List String) (metadatas : List MetaMap) : List (IndexedEntry E) :=
  (ids.zip (embeddings.zip (documents.zip metadatas))).map
    (fun p => ⟨p.1, p.2.1, p.2.2.1, p.2.2.2⟩)

/-- chromadb `Collection.add`: the four lists must have equal length (otherwise
chromadb raises); on success it yields the batch of new entries. -/
def collection_add {E : Type} (embeddings : List E) (documents : List String)
    (metadatas : List MetaMap) (ids : List String) :
    Except String (List (IndexedEntry E)) :=
  if embeddings.length = ids.length ∧ documents.length = ids.length ∧
      metadatas.length = ids.length then
    Except.ok (mk_entries ids embeddings documents metadatas)
  else
    Except.error "unequal lengths of embeddings, documents, metadatas and ids"

/-- The observable outcome of one pipeline run: the batched text list of each
call to `genai.embed_content_async`, the entry batch of each call to
`collection.add`, and the collection contents afterwards. -/
structure PipeOutcome (E : Type) where
  embedCalls : List (List String)
  addCalls : List (List (IndexedEntry E))
  store : List (IndexedEntry E)
deriving DecidableEq

/-- indexing_pipeline.py, `IndexingPipeline.process_and_index_pdf_async`.
The result of the external parser is passed in as `parse_result` (`none` models
a falsy non-list return such as Python `None`; the code treats it exactly like
the empty list); `embed` models `genai.embed_content_async` applied to the
batched content list (it may raise); `store` is the collection contents before
the run. -/
def process_and_index_pdf_async {E : Type}
    (embed : List String → Except String (List E))
    (pdf_path : String)
    (parse_result : Option (List Chunk))
    (store : List (IndexedEntry E)) : Except String (PipeOutcome E) :=
  match parse_result with
  | none => Except.ok ⟨[], [], store⟩
  | some parsed_data =>
    if parsed_data.isEmpty then Except.ok ⟨[], [], store⟩
    else
      let texts_to_embed := parsed_data.map prepare_chunk_for_embedding
      match embed texts_to_embed with
      | Except.error e => Except.error e
      | Except.ok embeddings =>
        let documents_to_upsert := texts_to_embed
        let metadatas_to_upsert := parsed_data.map chunk_metadata
        let ids_to_upsert := (List.range parsed_data.length).map
          (fun i => basename pdf_path ++ "_" ++ Nat.repr i)
        match collection_add embeddings documents_to_upsert metadatas_to_upsert
            ids_to_upsert with
        | Except.error e => Except.error e
        | Except.ok batch => Except.ok ⟨[texts_to_embed], [batch], store ++ batch⟩

/-- chromadb `Collection.query` result: for each query embedding one inner list
per field; every top-level field is optional. `D` is the abstract type of the
distance scores. -/
structure QueryReturn (D : Type) where
  ids : Option (List (List String))
  documents : Option (List (List String))
  distances : Option (List (List D))
  metadatas : Option (List (List MetaMap))

/-- retrieval_handler.py, `RetrievalHandler.retrieve_relevant_sections`.
`embed` models `genai.embed_content` applied to (content, task_type); `query`
models `collection.query` applied to (query_embeddings, n_results). The Python
`[0]` subscript raises IndexError on an empty list, modelled as an error. -/
def retrieve_relevant_sections {E D : Type}
    (embed : String → String → Except String E)
    (query : List E → Nat → Except String (QueryReturn D))
    (user_selection : String) (top_k : Nat) : Except String (List MetaMap) := do
  let query_embedding ← embed user_selection "RETRIEVAL_QUERY"
  let query_results ← query [query_embedding] top_k
  match (query_results.metadatas.getD [[]]).get? 0 with
  | some retrieved_metadatas => pure retrieved_metadatas
  | none => Except.error "IndexError: list index out of range"

/-- The part of INSIGHTS_PROMPT_TEMPLATE before the `\x7bcontext\x7d`
placeholder. -/
def PROMPT_PART1 : String :=
  "\nYou are an expert AI assistant for a document analysis tool.\nYour task is to analyze a user\x27s selected text and, based ONLY on the provided context from their document library, generate three types of insights.\nThe context below consists of sections from documents the user has previously read.\n\nAnalyze the user\x27s selection in light of the context and provide the following:\n1.  **Contradictions (⚔️):** Identify any statements in the context that directly contradict or challenge the user\x27s selected text. If none, state that.\n2.  **Enhancements (💡):** Find any information in the context that builds upon, refines, or provides a more detailed example of the concept in the user\x27s selection. If none, state that.\n3.  **Connections (🔗):** Point out any related concepts or similar ideas from the context that are not direct enhancements but are relevant to the user\x27s selection. If none, state that.\n\nYour response must be concise, grounded in the provided context, and structured clearly under these three headings.\n\n---\nCONTEXT:\n"

/-- The part of INSIGHTS_PROMPT_TEMPLATE between the `\x7bcontext\x7d` and
`\x7buser_selection\x7d` placeholders. -/
def PROMPT_PART2 : String :=
  "\n---\n\nUSER\x27S SELECTED TEXT:\n\""

/-- The part of INSIGHTS_PROMPT_TEMPLATE after the `\x7buser_selection\x7d`
placeholder. -/
def PROMPT_PART3 : String :=
  "\"\n\n---\nINSIGHTS:\n"

/-- `INSIGHTS_PROMPT_TEMPLATE.format(context=..., user_selection=...)`. -/
def insights_prompt (context user_selection : String) : String :=
  PROMPT_PART1 ++ context ++ PROMPT_PART2 ++ user_selection ++ PROMPT_PART3

/-- The per-section line of the context block in `generate_insights`. -/
def context_entry (item : MetaMap) : String :=
  "From \x27" ++ (dget item "document_name" (MetaVal.str "N/A")).pyStr ++
  "\x27 (Page " ++ (dget item "page_number" (MetaVal.str "N/A")).pyStr ++
  "):\n" ++ (dget item "original_content" (MetaVal.str "")).pyStr

/-- The joined context block in `generate_insights`. -/
def context_str (sections : List MetaMap) : String :=
  String.intercalate "\n\n---\n\n" (sections.map context_entry)

/-- The fixed message returned when retrieval produced no context sections. -/
def NO_CONTEXT_MSG : String :=
  "No relevant context was found in your library to generate insights."

/-- The fixed message returned when the generation call raises. -/
def GEN_ERROR_MSG : String :=
  "Error: Could not generate insights due to an API issue."

/-- retrieval_handler.py, `RetrievalHandler.generate_insights`. `gen` models
`self.generation_model.generate_content` followed by reading `response.text`
(both inside the try block, so any exception from either is caught). The
function is total: it never raises. -/
def generate_insights (gen : String → Except String String)
    (user_selection : String) (context_sections : List MetaMap) : String :=
  if context_sections.isEmpty then NO_CONTEXT_MSG
  else
    let prompt := insights_prompt (context_str context_sections) user_selection
    match gen prompt with
    | Except.ok text => text.trim
    | Except.error _ => GEN_ERROR_MSG

/-- The dict returned by `get_insights_for_selection`: its two keys are the two
fields of this record. -/
structure InsightResponse where
  retrieved_sections : List MetaMap
  generated_insights : String
deriving DecidableEq

/-- retrieval_handler.py, `RetrievalHandler.get_insights_for_selection`.
Retrieval is called with the Python default `top_k = 5`; exceptions from the
retrieval step propagate. -/
def get_insights_for_selection {E D : Type}
    (embed : String → String → Except String E)
    (query : List E → Nat → Except String (QueryReturn D))
    (gen : String → Except String String)
    (user_selection : String) : Except String InsightResponse := do
  let retrieved_sections ← retrieve_relevant_sections embed query user_selection 5
  let generated_insights := generate_insights gen user_selection retrieved_sections
  pure ⟨retrieved_sections, generated_insights⟩

/-- The parsed JSON request body of the endpoint, restricted to the shape the
code reads: `none` models a body that parsed to null, otherwise a dict of
string keys to string values. -/
abbrev ReqBody := Option (List (String × String))

/-- The JSON body of an HTTP response of the endpoint. -/
inductive RespBody where
  | err (msg : String)
  | insights (r : InsightResponse)
deriving DecidableEq

/-- An HTTP response: status code and JSON body. -/
structure HttpResponse where
  status : Nat
  body : RespBody
deriving DecidableEq

/-- app.py, the `get_insights` endpoint for `POST /get_insights`. `handler` is
`none` when `RetrievalHandler` construction failed at startup; otherwise it is
the function `retrieval_handler.get_insights_for_selection` (which may raise). -/
def app_get_insights (handler : Option (String → Except String InsightResponse))
    (data : ReqBody) : HttpResponse :=
  match handler with
  | none => ⟨500, RespBody.err "Backend handler is not initialized."⟩
  | some run =>
    match data with
    | none => ⟨400, RespBody.err "Missing \x27selection\x27 key in request body."⟩
    | some d =>
      if d.isEmpty then
        ⟨400, RespBody.err "Missing \x27selection\x27 key in request body."⟩
      else
        match d.lookup "selection" with
        | none => ⟨400, RespBody.err "Missing \x27selection\x27 key in request body."⟩
        | some user_selection =>
          match run user_selection with
          | Except.ok results => ⟨200, RespBody.insights results⟩
          | Except.error _ => ⟨500, RespBody.err "An internal error occurred."⟩

/-- Numeric value of a decimal digit character. -/
def digitVal (c : Char) : Nat := c.toNat - 48

/-- Value of a most-significant-first list of decimal digit characters. -/
def decList (l : List Char) : Nat :=
  l.foldl (fun a c => a * 10 + digitVal c) 0

/-- `Nat.toDigitsCore` only prepends to its accumulator. -/
theorem toDigitsCore_eq_append (b : Nat) :
    ∀ (f n : Nat) (ds : List Char),
      Nat.toDigitsCore b f n ds = Nat.toDigitsCore b f n [] ++ ds := by
  intro f
  induction f with
  | zero => intro n ds; simp [Nat.toDigitsCore]
  | succ f ih =>
    intro n ds
    simp only [Nat.toDigitsCore]
    by_cases h : n / b = 0
    · simp [h]
    · simp only [h, if_false]
      rw [ih (n / b) (Nat.digitChar (n % b) :: ds), ih (n / b) [Nat.digitChar (n % b)]]
      simp

/-- `digitVal` inverts `Nat.digitChar` on decimal digits. -/
theorem digitVal_digitChar : ∀ m, m < 10 → digitVal (Nat.digitChar m) = m := by decide

theorem decList_append_singleton (xs : List Char) (d : Char) :
    decList (xs ++ [d]) = decList xs * 10 + digitVal d := by
  simp [decList, List.foldl_append]

/-- `decList` inverts `Nat.toDigitsCore` in base 10 when the fuel suffices. -/
theorem decList_toDigitsCore :
    ∀ (f n : Nat), n < 10 ^ f → decList (Nat.toDigitsCore 10 f n []) = n := by
  intro f
  induction f with
  | zero => intro n h; interval_cases n; rfl
  | succ f ih =>
    intro n h
    simp only [Nat.toDigitsCore]
    by_cases h0 : n / 10 = 0
    · simp only [h0, if_true]
      have hlt : n % 10 < 10 := Nat.mod_lt _ (by norm_num)
      simp only [decList, List.foldl]
      rw [digitVal_digitChar (n % 10) hlt]
      omega
    · simp only [h0, if_false]
      rw [toDigitsCore_eq_append, decList_append_singleton]
      have hdiv : n / 10 < 10 ^ f := by
        rw [Nat.div_lt_iff_lt_mul (by norm_num)]
        calc n < 10 ^ (f + 1) := h
          _ = 10 ^ f * 10 := by ring
      rw [ih (n / 10) hdiv, digitVal_digitChar (n % 10) (Nat.mod_lt _ (by norm_num))]
      omega

/-- `decList` inverts the decimal representation `Nat.repr`. -/
theorem decList_repr (n : Nat) : decList (Nat.repr n).data = n := by
  have h : n < 10 ^ (n + 1) :=
    lt_of_lt_of_le (Nat.lt_pow_self (by norm_num) n)
      (Nat.pow_le_pow_right (by norm_num) (Nat.le_succ n))
  exact decList_toDigitsCore (n + 1) n h

/-- The decimal representation of a natural number is injective. -/
theorem nat_repr_injective : Function.Injective Nat.repr := by
  intro m n h
  have h2 := congrArg (fun s => decList s.data) h
  simpa [decList_repr] using h2

theorem string_append_left_cancel {a b c : String} (h : a ++ b = a ++ c) : b = c := by
  have hd := congrArg String.data h
  simp only [String.data_append] at hd
  exact String.ext (List.append_cancel_left hd)

/-- The identifiers built from one base name and distinct indices are distinct. -/
theorem chunk_id_injective (base : String) :
    Function.Injective (fun i : Nat => base ++ "_" ++ Nat.repr i) := by
  intro i j h
  exact nat_repr_injective (string_append_left_cancel h)

/-- Bind on a successful `Except` computation runs the continuation. -/
theorem except_bind_ok {α β : Type} (a : α) (f : α → Except String β) :
    (Except.ok a : Except String α) >>= f = f a := rfl

/-- Bind on a failed `Except` computation propagates the error. -/
theorem except_bind_error {α β : Type} (e : String) (f : α → Except String β) :
    (Except.error e : Except String α) >>= f = Except.error e := rfl

/-- The identifier list built for `n` chunks. -/
theorem ids_length (pdf_path : String) (n : Nat) :
    ((List.range n).map (fun i => basename pdf_path ++ "_" ++ Nat.repr i)).length = n := by
  simp

theorem mk_entries_length {E : Type} (ids : List String) (embeddings : List E)
    (documents : List String) (metadatas : List MetaMap)
    (h1 : embeddings.length = ids.length) (h2 : documents.length = ids.length)
    (h3 : metadatas.length = ids.length) :
    (mk_entries ids embeddings documents metadatas).length = ids.length := by
  simp [mk_entries, h1, h2, h3]

theorem mk_entries_map_id {E : Type} (ids : List String) (embeddings : List E)
    (documents : List String) (metadatas : List MetaMap)
    (h1 : embeddings.length = ids.length) (h2 : documents.length = ids.length)
    (h3 : metadatas.length = ids.length) :
    (mk_entries ids embeddings documents metadatas).map IndexedEntry.id = ids := by
  rw [mk_entries, List.map_map]
  have hc : (IndexedEntry.id ∘ fun p : String × (E × (String × MetaMap)) =>
      (⟨p.1, p.2.1, p.2.2.1, p.2.2.2⟩ : IndexedEntry E)) = Prod.fst := rfl
  rw [hc]
  apply List.map_fst_zip
  simp [h1, h2, h3]

theorem mk_entries_get {E : Type} (ids : List String) (embeddings : List E)
    (documents : List String) (metadatas : List MetaMap)
    (i : Nat) (hi : i < (mk_entries ids embeddings documents metadatas).length)
    (hi1 : i < ids.length) (hi2 : i < embeddings.length) (hi3 : i < documents.length)
    (hi4 : i < metadatas.length) :
    (mk_entries ids embeddings documents metadatas).get ⟨i, hi⟩ =
      ⟨ids.get ⟨i, hi1⟩, embeddings.get ⟨i, hi2⟩,
       documents.get ⟨i, hi3⟩, metadatas.get ⟨i, hi4⟩⟩ := by
  simp [mk_entries, List.get_eq_getElem, List.getElem_map, List.getElem_zip]

/-- Reduction of the pipeline on a non-empty parse whose embedding call
succeeds with one embedding per text. -/
theorem process_ok {E : Type}
    (embed : List String → Except String (List E))
    (pdf_path : String) (parsed_data : List Chunk) (embeddings : List E)
    (store : List (IndexedEntry E))
    (hne : parsed_data ≠ [])
    (hemb : embed (parsed_data.map prepare_chunk_for_embedding) = Except.ok embeddings)
    (hlen : embeddings.length = parsed_data.length) :
    process_and_index_pdf_async embed pdf_path (some parsed_data) store =
      Except.ok ⟨[parsed_data.map prepare_chunk_for_embedding],
        [mk_entries ((List.range parsed_data.length).map
            (fun i => basename pdf_path ++ "_" ++ Nat.repr i))
          embeddings (parsed_data.map prepare_chunk_for_embedding)
          (parsed_data.map chunk_metadata)],
        store ++ mk_entries ((List.range parsed_data.length).map
            (fun i => basename pdf_path ++ "_" ++ Nat.repr i))
          embeddings (parsed_data.map prepare_chunk_for_embedding)
          (parsed_data.map chunk_metadata)⟩ := by
  have hisEmpty : parsed_data.isEmpty = false := by
    cases parsed_data with
    | nil => exact absurd rfl hne
    | cons a l => rfl
  rw [process_and_index_pdf_async]
  simp only [hisEmpty, Bool.false_eq_true, if_false, hemb]
  rw [collection_add, if_pos]
  constructor
  · rw [ids_length, hlen]
  constructor
  · rw [ids_length, List.length_map]
  · rw [ids_length, List.length_map]

/-- C5: when the parse result is empty (or an absent/falsy value), the pipeline
returns normally, makes no embedding call and no add call, and the collection
contents are unchanged. -/
theorem C5_empty_parse_no_write {E : Type}
    (embed : List String → Except String (List E))
    (pdf_path : String) (parse_result : Option (List Chunk))
    (store : List (IndexedEntry E))
    (h : parse_result = none ∨ parse_result = some []) :
    process_and_index_pdf_async embed pdf_path parse_result store =
      Except.ok ⟨[], [], store⟩ := by
  rcases h with h | h <;> subst h <;> rfl

theorem C5_empty_parse_no_write_witness :
    process_and_index_pdf_async (E := Nat) (fun _ => Except.ok []) "pdfs/a.pdf"
      (some []) [] = Except.ok ⟨[], [], []⟩ :=
  C5_empty_parse_no_write (fun _ => Except.ok []) "pdfs/a.pdf" (some []) []
    (Or.inr rfl)

/-- C10: the metadata map built for a chunk is total over missing fields:
document_name, section_title and original_content default to the empty string,
full_path defaults to the empty sequence (flattened to the empty string), and
page_number is stored as an integer, defaulting to 0 when absent. -/
theorem C10_metadata_defaults (chunk : Chunk) :
    (chunk_metadata chunk).lookup "document_name" =
      some (MetaVal.str (chunk.document_name.getD "")) ∧
    (chunk_metadata chunk).lookup "page_number" =
      some (MetaVal.int (chunk.page_number.getD 0)) ∧
    (chunk_metadata chunk).lookup "section_title" =
      some (MetaVal.str (chunk.section_title.getD "")) ∧
    (chunk_metadata chunk).lookup "full_path" =
      some (MetaVal.str (String.intercalate " > " (chunk.full_path.getD []))) ∧
    (chunk_metadata chunk).lookup "original_content" =
      some (MetaVal.str (chunk.content.getD "")) ∧
    chunk_metadata ⟨none, none, none, none, none⟩ =
      [("document_name", MetaVal.str ""), ("page_number", MetaVal.int 0),
       ("section_title", MetaVal.str ""), ("full_path", MetaVal.str ""),
       ("original_content", MetaVal.str "")] :=
  ⟨rfl, rfl, rfl, rfl, rfl, rfl⟩

/-- C1: on a parse with at least one chunk, the pipeline performs exactly one
batched add call, whose batch has exactly one entry per chunk; the identifier
of the entry at position i is basename(pdf_path) ++ "_" ++ i, and the
identifiers of the batch are pairwise distinct. -/
theorem C1_one_entry_per_chunk {E : Type}
    (embed : List String → Except String (List E))
    (pdf_path : String) (parsed_data : List Chunk) (embeddings : List E)
    (store : List (IndexedEntry E))
    (hne : parsed_data ≠ [])
    (hemb : embed (parsed_data.map prepare_chunk_for_embedding) = Except.ok embeddings)
    (hlen : embeddings.length = parsed_data.length) :
    ∃ batch : List (IndexedEntry E),
      process_and_index_pdf_async embed pdf_path (some parsed_data) store =
        Except.ok ⟨[parsed_data.map prepare_chunk_for_embedding], [batch],
          store ++ batch⟩ ∧
      batch.length = parsed_data.length ∧
      (∀ i (h : i < batch.length),
        (batch.get ⟨i, h⟩).id = basename pdf_path ++ "_" ++ Nat.repr i) ∧
      (batch.map IndexedEntry.id).Nodup := by
  have hpo := process_ok embed pdf_path parsed_data embeddings store hne hemb hlen
  set ids := (List.range parsed_data.length).map
      (fun i => basename pdf_path ++ "_" ++ Nat.repr i) with hids_def
  have hidslen : ids.length = parsed_data.length := by simp [hids_def]
  have h1 : embeddings.length = ids.length := by rw [hidslen]; exact hlen
  have h2 : (parsed_data.map prepare_chunk_for_embedding).length = ids.length := by
    rw [hidslen, List.length_map]
  have h3 : (parsed_data.map chunk_metadata).length = ids.length := by
    rw [hidslen, List.length_map]
  have hbl : (mk_entries ids embeddings (parsed_data.map prepare_chunk_for_embedding)
      (parsed_data.map chunk_metadata)).length = parsed_data.length := by
    rw [mk_entries_length _ _ _ _ h1 h2 h3, hidslen]
  refine ⟨mk_entries ids embeddings (parsed_data.map prepare_chunk_for_embedding)
      (parsed_data.map chunk_metadata), hpo, hbl, ?_, ?_⟩
  · intro i h
    have hi : i < parsed_data.length := by rw [hbl] at h; exact h
    have hi1 : i < ids.length := by rw [hidslen]; exact hi
    have hi2 : i < embeddings.length := by rw [hlen]; exact hi
    have hi3 : i < (parsed_data.map prepare_chunk_for_embedding).length := by
      rw [List.length_map]; exact hi
    have hi4 : i < (parsed_data.map chunk_metadata).length := by
      rw [List.length_map]; exact hi
    rw [mk_entries_get ids embeddings _ _ i h hi1 hi2 hi3 hi4]
    simp [hids_def]
  · rw [mk_entries_map_id _ _ _ _ h1 h2 h3, hids_def]
    exact (List.nodup_range parsed_data.length).map
      (chunk_id_injective (basename pdf_path))

theorem C1_one_entry_per_chunk_witness :
    ∃ batch : List (IndexedEntry Nat),
      process_and_index_pdf_async (fun _ => Except.ok [7, 8]) "pdfs/doc.pdf"
        (some [⟨some "doc.pdf", some 1, some "Intro", some ["A", "B"], some "hello"⟩,
               ⟨none, none, none, none, none⟩]) [] =
        Except.ok ⟨[[⟨some "doc.pdf", some 1, some "Intro", some ["A", "B"],
              some "hello"⟩,
            (⟨none, none, none, none, none⟩ : Chunk)].map prepare_chunk_for_embedding],
          [batch], [] ++ batch⟩ ∧
      batch.length = 2 ∧
      (∀ i (h : i < batch.length),
        (batch.get ⟨i, h⟩).id = basename "pdfs/doc.pdf" ++ "_" ++ Nat.repr i) ∧
      (batch.map IndexedEntry.id).Nodup :=
  C1_one_entry_per_chunk (fun _ => Except.ok [7, 8]) "pdfs/doc.pdf"
    [⟨some "doc.pdf", some 1, some "Intro", some ["A", "B"], some "hello"⟩,
     ⟨none, none, none, none, none⟩] [7, 8] []
    (by decide) rfl rfl

/-- C7: the descriptive text built for a chunk is the fixed prefix, the
hierarchical path joined by " > ", a newline plus the fixed content label, and
the content; the pipeline sends exactly this list of texts to the embedding
client in one call, and stores the same string as the document text of the
corresponding entry. -/
theorem C7_descriptive_text {E : Type}
    (embed : List String → Except String (List E))
    (pdf_path : String) (parsed_data : List Chunk) (embeddings : List E)
    (store : List (IndexedEntry E))
    (hne : parsed_data ≠ [])
    (hemb : embed (parsed_data.map prepare_chunk_for_embedding) = Except.ok embeddings)
    (hlen : embeddings.length = parsed_data.length) :
    (∀ chunk : Chunk, prepare_chunk_for_embedding chunk =
      "Section Path: " ++ String.intercalate " > " (chunk.full_path.getD []) ++
      "\nContent: " ++ chunk.content.getD "") ∧
    ∃ batch : List (IndexedEntry E),
      process_and_index_pdf_async embed pdf_path (some parsed_data) store =
        Except.ok ⟨[parsed_data.map prepare_chunk_for_embedding], [batch],
          store ++ batch⟩ ∧
      (∀ i (hb : i < batch.length) (hp : i < parsed_data.length),
        (batch.get ⟨i, hb⟩).document =
          prepare_chunk_for_embedding (parsed_data.get ⟨i, hp⟩)) := by
  refine ⟨fun chunk => rfl, ?_⟩
  have hpo := process_ok embed pdf_path parsed_data embeddings store hne hemb hlen
  set ids := (List.range parsed_data.length).map
      (fun i => basename pdf_path ++ "_" ++ Nat.repr i) with hids_def
  refine ⟨mk_entries ids embeddings (parsed_data.map prepare_chunk_for_embedding)
      (parsed_data.map chunk_metadata), hpo, ?_⟩
  intro i hb hp
  have hidslen : ids.length = parsed_data.length := by simp [hids_def]
  have hi1 : i < ids.length := by rw [hidslen]; exact hp
  have hi2 : i < embeddings.length := by rw [hlen]; exact hp
  have hi3 : i < (parsed_data.map prepare_chunk_for_embedding).length := by
    rw [List.length_map]; exact hp
  have hi4 : i < (parsed_data.map chunk_metadata).length := by
    rw [List.length_map]; exact hp
  rw [mk_entries_get ids embeddings _ _ i hb hi1 hi2 hi3 hi4]
  simp

theorem C7_descriptive_text_witness :
    (∀ chunk : Chunk, prepare_chunk_for_embedding chunk =
      "Section Path: " ++ String.intercalate " > " (chunk.full_path.getD []) ++
      "\nContent: " ++ chunk.content.getD "") ∧
    ∃ batch : List (IndexedEntry Nat),
      process_and_index_pdf_async (fun _ => Except.ok [3]) "report.pdf"
        (some [⟨some "report.pdf", some 2, some "T", some ["T"], some "body"⟩]) [] =
        Except.ok ⟨[[(⟨some "report.pdf", some 2, some "T", some ["T"],
            some "body"⟩ : Chunk)].map prepare_chunk_for_embedding], [batch],
          [] ++ batch⟩ ∧
      (∀ i (hb : i < batch.length) (hp : i <
          [(⟨some "report.pdf", some 2, some "T", some ["T"],
            some "body"⟩ : Chunk)].length),
        (batch.get ⟨i, hb⟩).document =
          prepare_chunk_for_embedding
            ([(⟨some "report.pdf", some 2, some "T", some ["T"],
              some "body"⟩ : Chunk)].get ⟨i, hp⟩)) :=
  C7_descriptive_text (fun _ => Except.ok [3]) "report.pdf"
    [⟨some "report.pdf", some 2, some "T", some ["T"], some "body"⟩] [3] []
    (by decide) rfl rfl

/-- C6: retrieve_relevant_sections embeds the selection with the
RETRIEVAL_QUERY task type, queries the store with n_results = top_k, and
returns exactly the first inner metadata list of the query result, in the
order the store returned it — at most top_k entries when the store honors
n_results — while every non-metadata field of the query result, and the
behavior of the embedding client on any other input, is discarded. -/
theorem C6_retrieve_first_metadatas {E D : Type}
    (embed : String → String → Except String E)
    (query : List E → Nat → Except String (QueryReturn D))
    (user_selection : String) (top_k : Nat) (qe : E) (qr : QueryReturn D)
    (ms : List MetaMap) (rest : List (List MetaMap))
    (hemb : embed user_selection "RETRIEVAL_QUERY" = Except.ok qe)
    (hq : query [qe] top_k = Except.ok qr)
    (hm : qr.metadatas = some (ms :: rest))
    (hk : ms.length ≤ top_k) :
    retrieve_relevant_sections embed query user_selection top_k = Except.ok ms ∧
    ms.length ≤ top_k ∧
    (∀ (query' : List E → Nat → Except String (QueryReturn D)) (qr' : QueryReturn D),
      query' [qe] top_k = Except.ok qr' → qr'.metadatas = qr.metadatas →
      retrieve_relevant_sections embed query' user_selection top_k = Except.ok ms) ∧
    (∀ embed' : String → String → Except String E,
      embed' user_selection "RETRIEVAL_QUERY" = embed user_selection "RETRIEVAL_QUERY" →
      retrieve_relevant_sections embed' query user_selection top_k = Except.ok ms) := by
  have hmain : retrieve_relevant_sections embed query user_selection top_k =
      Except.ok ms := by
    simp only [retrieve_relevant_sections, hemb, except_bind_ok, hq, hm,
      Option.getD_some, List.get?_cons_zero]
    rfl
  refine ⟨hmain, hk, ?_, ?_⟩
  · intro query' qr' hq' hmm
    rw [hm] at hmm
    simp only [retrieve_relevant_sections, hemb, except_bind_ok, hq', hmm,
      Option.getD_some, List.get?_cons_zero]
    rfl
  · intro embed' hee
    rw [hemb] at hee
    simp only [retrieve_relevant_sections, hee, except_bind_ok, hq, hm,
      Option.getD_some, List.get?_cons_zero]
    rfl

theorem C6_retrieve_first_metadatas_witness :
    retrieve_relevant_sections (E := Nat) (D := Nat)
      (fun _ t => if t = "RETRIEVAL_QUERY" then Except.ok 1 else Except.error "task")
      (fun _ _ => Except.ok ⟨none, none, none,
        some [[[("document_name", MetaVal.str "doc.pdf")]], []]⟩)
      "photosynthesis" 5 =
      Except.ok [[("document_name", MetaVal.str "doc.pdf")]] :=
  (C6_retrieve_first_metadatas
    (fun _ t => if t = "RETRIEVAL_QUERY" then Except.ok 1 else Except.error "task")
    (fun _ _ => Except.ok ⟨none, none, none,
      some [[[("document_name", MetaVal.str "doc.pdf")]], []]⟩)
    "photosynthesis" 5 1
    ⟨none, none, none, some [[[("document_name", MetaVal.str "doc.pdf")]], []]⟩
    [[("document_name", MetaVal.str "doc.pdf")]] [[]]
    rfl rfl rfl (by decide)).1

/-- C2: when the retrieval step returns a section list, the orchestration
returns a response carrying both fields (the retrieved sections and the
generated insight text); when that list is empty, the generated text is the
fixed no-context string and the generation client is never consulted (the
response does not depend on it). -/
theorem C2_response_keys {E D : Type}
    (embed : String → String → Except String E)
    (query : List E → Nat → Except String (QueryReturn D))
    (gen gen' : String → Except String String)
    (user_selection : String) (rs : List MetaMap)
    (hr : retrieve_relevant_sections embed query user_selection 5 = Except.ok rs) :
    get_insights_for_selection embed query gen user_selection =
      Except.ok ⟨rs, generate_insights gen user_selection rs⟩ ∧
    (rs = [] →
      generate_insights gen user_selection rs = NO_CONTEXT_MSG ∧
      get_insights_for_selection embed query gen user_selection =
        get_insights_for_selection embed query gen' user_selection) := by
  have hmain : ∀ g : String → Except String String,
      get_insights_for_selection embed query g user_selection =
        Except.ok ⟨rs, generate_insights g user_selection rs⟩ := by
    intro g
    simp only [get_insights_for_selection, hr, except_bind_ok]
    rfl
  refine ⟨hmain gen, fun hrs => ⟨?_, ?_⟩⟩
  · subst hrs; rfl
  · rw [hmain gen, hmain gen']
    subst hrs
    rfl

theorem C2_response_keys_witness :
    get_insights_for_selection (E := Nat) (D := Nat)
      (fun _ _ => Except.ok 1)
      (fun _ _ => Except.ok ⟨none, none, none, some [[]]⟩)
      (fun _ => Except.error "downstream") "sel" =
      Except.ok ⟨[], generate_insights (fun _ => Except.error "downstream") "sel" []⟩ ∧
    (([] : List MetaMap) = [] →
      generate_insights (fun _ => Except.error "downstream") "sel" [] =
        NO_CONTEXT_MSG ∧
      get_insights_for_selection (E := Nat) (D := Nat)
        (fun _ _ => Except.ok 1)
        (fun _ _ => Except.ok ⟨none, none, none, some [[]]⟩)
        (fun _ => Except.error "downstream") "sel" =
      get_insights_for_selection (E := Nat) (D := Nat)
        (fun _ _ => Except.ok 1)
        (fun _ _ => Except.ok ⟨none, none, none, some [[]]⟩)
        (fun _ => Except.ok "never used") "sel") :=
  C2_response_keys (fun _ _ => Except.ok 1)
    (fun _ _ => Except.ok ⟨none, none, none, some [[]]⟩)
    (fun _ => Except.error "downstream") (fun _ => Except.ok "never used")
    "sel" [] rfl

/-- C3: generate_insights never propagates an exception of the generation
client: with a non-empty context, a failing generation call yields the fixed
error string inside the normal (string-valued) result, and a successful call
yields the generated text with surrounding whitespace removed. -/
theorem C3_gen_exceptions_absorbed
    (gen : String → Except String String) (user_selection : String)
    (context_sections : List MetaMap) (hne : context_sections ≠ []) :
    (∀ e, gen (insights_prompt (context_str context_sections) user_selection) =
        Except.error e →
      generate_insights gen user_selection context_sections = GEN_ERROR_MSG) ∧
    (∀ t, gen (insights_prompt (context_str context_sections) user_selection) =
        Except.ok t →
      generate_insights gen user_selection context_sections = t.trim) := by
  have hie : context_sections.isEmpty = false := by
    cases context_sections with
    | nil => exact absurd rfl hne
    | cons a l => rfl
  constructor
  · intro e he
    simp only [generate_insights, hie, Bool.false_eq_true, if_false, he]
  · intro t ht
    simp only [generate_insights, hie, Bool.false_eq_true, if_false, ht]

theorem C3_gen_exceptions_absorbed_witness :
    generate_insights (fun _ => Except.error "boom") "sel"
      [[("document_name", MetaVal.str "d.pdf")]] = GEN_ERROR_MSG ∧
    generate_insights (fun _ => Except.ok "  out  ") "sel"
      [[("document_name", MetaVal.str "d.pdf")]] = "  out  ".trim :=
  ⟨(C3_gen_exceptions_absorbed (fun _ => Except.error "boom") "sel"
      [[("document_name", MetaVal.str "d.pdf")]] (by decide)).1 "boom" rfl,
   (C3_gen_exceptions_absorbed (fun _ => Except.ok "  out  ") "sel"
      [[("document_name", MetaVal.str "d.pdf")]] (by decide)).2 "  out  " rfl⟩

/-- C9: exceptions of the retrieval step (the query-embedding call or the
store query) propagate out of get_insights_for_selection, and the endpoint
turns such an error into a generic 500; by contrast, when retrieval succeeds
the handler returns a success response whatever the generation client does. -/
theorem C9_retrieval_errors_propagate {E D : Type}
    (embed : String → String → Except String E)
    (query : List E → Nat → Except String (QueryReturn D))
    (gen : String → Except String String) (user_selection : String) :
    (∀ e, embed user_selection "RETRIEVAL_QUERY" = Except.error e →
      get_insights_for_selection embed query gen user_selection = Except.error e) ∧
    (∀ qe e, embed user_selection "RETRIEVAL_QUERY" = Except.ok qe →
      query [qe] 5 = Except.error e →
      get_insights_for_selection embed query gen user_selection = Except.error e) ∧
    (∀ (d : List (String × String)) e, d.lookup "selection" = some user_selection →
      get_insights_for_selection embed query gen user_selection = Except.error e →
      app_get_insights (some (get_insights_for_selection embed query gen)) (some d) =
        ⟨500, RespBody.err "An internal error occurred."⟩) ∧
    (∀ rs, retrieve_relevant_sections embed query user_selection 5 = Except.ok rs →
      ∃ r, get_insights_for_selection embed query gen user_selection =
        Except.ok r) := by
  refine ⟨?_, ?_, ?_, ?_⟩
  · intro e he
    simp only [get_insights_for_selection, retrieve_relevant_sections, he,
      except_bind_error]
  · intro qe e he hq
    simp only [get_insights_for_selection, retrieve_relevant_sections, he,
      except_bind_ok, hq, except_bind_error]
  · intro d e hd herr
    have hdne : d.isEmpty = false := by
      cases d with
      | nil => simp [List.lookup] at hd
      | cons a l => rfl
    simp only [app_get_insights, hdne, Bool.false_eq_true, if_false, hd, herr]
  · intro rs hrs
    exact ⟨⟨rs, generate_insights gen user_selection rs⟩, by
      simp only [get_insights_for_selection, hrs, except_bind_ok]; rfl⟩

theorem C9_retrieval_errors_propagate_witness :
    get_insights_for_selection (E := Nat) (D := Nat)
      (fun _ _ => Except.error "quota exceeded")
      (fun _ _ => Except.ok ⟨none, none, none, some [[]]⟩)
      (fun _ => Except.ok "text") "sel" = Except.error "quota exceeded" ∧
    app_get_insights
      (some (get_insights_for_selection (E := Nat) (D := Nat)
        (fun _ _ => Except.error "quota exceeded")
        (fun _ _ => Except.ok ⟨none, none, none, some [[]]⟩)
        (fun _ => Except.ok "text")))
      (some [("selection", "sel")]) =
      ⟨500, RespBody.err "An internal error occurred."⟩ :=
  ⟨(C9_retrieval_errors_propagate
      (fun _ _ => Except.error "quota exceeded")
      (fun _ _ => Except.ok ⟨none, none, none, some [[]]⟩)
      (fun _ => Except.ok "text") "sel").1 "quota exceeded" rfl,
   (C9_retrieval_errors_propagate
      (fun _ _ => Except.error "quota exceeded")
      (fun _ _ => Except.ok ⟨none, none, none, some [[]]⟩)
      (fun _ => Except.ok "text") "sel").2.2.1 [("selection", "sel")]
      "quota exceeded" rfl
      ((C9_retrieval_errors_propagate
        (fun _ _ => Except.error "quota exceeded")
        (fun _ _ => Except.ok ⟨none, none, none, some [[]]⟩)
        (fun _ => Except.ok "text") "sel").1 "quota exceeded" rfl)⟩

/-- C4: the endpoint returns 500 whenever the handler was not constructed,
400 with the missing-selection error message when the body is null, empty or
lacks the selection key, 200 with the handler result as body on success, and
a generic 500 when the handler raises. -/
theorem C4_endpoint_contract (run : String → Except String InsightResponse) :
    (∀ body : ReqBody, app_get_insights none body =
      ⟨500, RespBody.err "Backend handler is not initialized."⟩) ∧
    (app_get_insights (some run) none =
      ⟨400, RespBody.err "Missing \x27selection\x27 key in request body."⟩) ∧
    (∀ d : List (String × String), d.lookup "selection" = none →
      app_get_insights (some run) (some d) =
        ⟨400, RespBody.err "Missing \x27selection\x27 key in request body."⟩) ∧
    (∀ (d : List (String × String)) (sel : String) (r : InsightResponse),
      d.lookup "selection" = some sel → run sel = Except.ok r →
      app_get_insights (some run) (some d) = ⟨200, RespBody.insights r⟩) ∧
    (∀ (d : List (String × String)) (sel : String) (e : String),
      d.lookup "selection" = some sel → run sel = Except.error e →
      app_get_insights (some run) (some d) =
        ⟨500, RespBody.err "An internal error occurred."⟩) := by
  refine ⟨fun body => rfl, rfl, ?_, ?_, ?_⟩
  · intro d hd
    cases d with
    | nil => rfl
    | cons a l =>
      simp only [app_get_insights, List.isEmpty_cons, Bool.false_eq_true,
        if_false, hd]
  · intro d sel r hd hrun
    have hdne : d.isEmpty = false := by
      cases d with
      | nil => simp [List.lookup] at hd
      | cons a l => rfl
    simp only [app_get_insights, hdne, Bool.false_eq_true, if_false, hd, hrun]
  · intro d sel e hd hrun
    have hdne : d.isEmpty = false := by
      cases d with
      | nil => simp [List.lookup] at hd
      | cons a l => rfl
    simp only [app_get_insights, hdne, Bool.false_eq_true, if_false, hd, hrun]

theorem C4_endpoint_contract_witness :
    app_get_insights none (some [("selection", "hi")]) =
      ⟨500, RespBody.err "Backend handler is not initialized."⟩ ∧
    app_get_insights (some (fun _ => Except.ok ⟨[], "g"⟩)) (some []) =
      ⟨400, RespBody.err "Missing \x27selection\x27 key in request body."⟩ ∧
    app_get_insights (some (fun _ => Except.ok ⟨[], "g"⟩))
        (some [("selection", "hi")]) =
      ⟨200, RespBody.insights ⟨[], "g"⟩⟩ ∧
    app_get_insights (some (fun _ => Except.error "x"))
        (some [("selection", "hi")]) =
      ⟨500, RespBody.err "An internal error occurred."⟩ :=
  ⟨(C4_endpoint_contract (fun _ => Except.ok ⟨[], "g"⟩)).1
      (some [("selection", "hi")]),
   (C4_endpoint_contract (fun _ => Except.ok ⟨[], "g"⟩)).2.2.1 [] rfl,
   (C4_endpoint_contract (fun _ => Except.ok ⟨[], "g"⟩)).2.2.2.1
      [("selection", "hi")] "hi" ⟨[], "g"⟩ rfl rfl,
   (C4_endpoint_contract (fun _ => Except.error "x")).2.2.2.2
      [("selection", "hi")] "hi" "x" rfl rfl⟩
